import Mathlib

/-!
Shallow embedding of the Contentful CMS data layer of this repository
(`src/lib/contentful.ts` and `src/services/contentful.ts` content): the
retry-with-backoff wrapper, the TTL cache, the client construction, the
entry-to-domain transformation, and the cached fetch accessors.

JavaScript conventions used throughout the embedding:
* a possibly-`undefined` value is an `Option`;
* a thrown JavaScript value is `Thrown`: `errObj name message` is an
  `Error` instance (its `name` distinguishes `Error`, `TypeError`,
  `ContentfulError`), `other` is any non-`Error` thrown value;
* fallible functions return `Except Thrown`;
* string truthiness: `undefined` and `""` are falsy; number truthiness:
  `undefined` and `0` are falsy.
-/

namespace Austacute

/-- A thrown JavaScript value: an `Error` instance carrying its class name
and message, or any non-`Error` value (for `instanceof Error` checks). -/
inductive Thrown where
  | errObj (name : String) (message : String)
  | other
deriving DecidableEq, Repr

/-- Char-list prefix test (`needle` is a prefix of `hay`). -/
def strHasPrefix : List Char → List Char → Bool
  | [], _ => true
  | _ :: _, [] => false
  | c :: cs, d :: ds => c = d && strHasPrefix cs ds

/-- Char-list infix test: `needle` occurs contiguously in `hay`. -/
def strHasInfix (needle hay : List Char) : Bool :=
  strHasPrefix needle hay ||
    match hay with
    | [] => false
    | _ :: t => strHasInfix needle t

/-- JavaScript `s.includes(pattern)`: substring containment. -/
def jsIncludes (s pattern : String) : Bool :=
  strHasInfix pattern.toList s.toList

/-- JavaScript `s.trim()`: strip leading and trailing whitespace. -/
def jsTrim (s : String) : String :=
  String.mk (((s.toList.dropWhile Char.isWhitespace).reverse.dropWhile
    Char.isWhitespace).reverse)

/-- The client-error classification of `withRetry`
(`error instanceof Error && error.message.includes('4')`). -/
def isClientError (e : Thrown) : Bool :=
  match e with
  | .errObj _ m => jsIncludes m "4"
  | .other => false

/-- The body of `withRetry`'s `for` loop, structurally recursive on the
remaining attempts (`fuel = maxAttempts - attempt`).  `fn i` is the outcome
of the operation on its `i`-th invocation; the returned `Nat` counts the
invocations performed.  When the fuel runs out the loop rethrows the last
observed error (`throw lastError`; throwing the initial `undefined` when no
attempt ever ran is `Thrown.other`).  The backoff delay is unobservable
here and elided. -/
def withRetryLoop {α : Type} (fn : Nat → Except Thrown α) :
    Nat → Nat → Option Thrown → Except Thrown α × Nat
  | 0, attempt, lastError => (.error (lastError.getD .other), attempt)
  | fuel + 1, attempt, lastError =>
    match fn attempt with
    | .ok v => (.ok v, attempt + 1)
    | .error e =>
      if isClientError e then (.error e, attempt + 1)
      else
        have _ := lastError
        withRetryLoop fn fuel (attempt + 1) (some e)

/-- `withRetry(fn, maxAttempts)` from `src/lib/contentful.ts` (the
`initialDelayMs` argument only shapes the unobservable delays). -/
def withRetry {α : Type} (fn : Nat → Except Thrown α) (maxAttempts : Nat) :
    Except Thrown α × Nat :=
  withRetryLoop fn maxAttempts 0 none

/-!
TTL cache (`src/lib/contentful.ts`).  The module-level `Map` is modelled as
an association list of `(key, data, timestamp)`; `Date.now()` is an explicit
`now : Nat` argument.  The cache is generic in the stored value type, as the
source functions are generic in `T`.
-/

/-- `5 * 60 * 1000` milliseconds. -/
def CACHE_DURATION_MS : Nat := 5 * 60 * 1000

/-- `cache.get(key)`: the stored `{data, timestamp}` for `key`, if any. -/
def cacheFind {V : Type} : List (String × V × Nat) → String → Option (V × Nat)
  | [], _ => none
  | (k, v, t) :: rest, key => if k = key then some (v, t) else cacheFind rest key

/-- `cache.delete(key)`. -/
def cacheDelete {V : Type} : List (String × V × Nat) → String → List (String × V × Nat)
  | [], _ => []
  | (k, v, t) :: rest, key =>
    if k = key then cacheDelete rest key else (k, v, t) :: cacheDelete rest key

/-- `getCachedData<T>(key)` at time `now`: the returned value (`null` is
`none`) together with the cache after the lazy eviction of an expired
entry. -/
def getCachedData {V : Type} (now : Nat) (cache : List (String × V × Nat))
    (key : String) : Option V × List (String × V × Nat) :=
  match cacheFind cache key with
  | none => (none, cache)
  | some (v, ts) =>
    if now - ts > CACHE_DURATION_MS then (none, cacheDelete cache key)
    else (some v, cache)

/-- `setCachedData<T>(key, data)` at time `now`.  `Map.set` overwrites the
entry for `key`; only lookup order is observable through `cacheFind`, so the
overwritten entry is removed and the new one consed on. -/
def setCachedData {V : Type} (key : String) (data : V) (now : Nat)
    (cache : List (String × V × Nat)) : List (String × V × Nat) :=
  (key, data, now) :: cacheDelete cache key

/-- `clearCache()`. -/
def clearCache {V : Type} (_cache : List (String × V × Nat)) :
    List (String × V × Nat) := []

/-!
Client construction (`src/lib/contentful.ts`): `initializeContentfulClient`
and the memoized `getContentfulClient`.  `import.meta.env` is an explicit
`Env`; `createClient` is modelled as returning its configuration record.
-/

/-- The three `import.meta.env` values read by the client; `none` is an
unset variable. -/
structure Env where
  spaceId : Option String
  accessToken : Option String
  previewToken : Option String
deriving DecidableEq, Repr

/-- The argument to `createClient`, standing for the constructed handle. -/
structure ClientConfig where
  space : String
  accessToken : String
  host : String
deriving DecidableEq, Repr

/-- JavaScript string truthiness: `undefined` and `""` are falsy. -/
def jsTruthyStr (o : Option String) : Bool :=
  match o with
  | none => false
  | some s => s ≠ ""

/-- JavaScript `o || dflt` on a possibly-`undefined` string. -/
def jsOrStr (o : Option String) (dflt : String) : String :=
  match o with
  | none => dflt
  | some s => if s = "" then dflt else s

/-- `initializeContentfulClient`: reads the two required values with their
hardcoded fallback credentials, the optional preview token, and throws when
a required value is falsy. -/
def initializeContentfulClient (env : Env) : Except Thrown ClientConfig :=
  let spaceId := jsOrStr env.spaceId "z9ei2s7jmq34"
  let accessToken := jsOrStr env.accessToken "1D1JdXttqP3jIt6Xasfcs_IIFyHBOtpvfmuUliWmkgc"
  let previewToken := env.previewToken
  if spaceId = "" ∨ accessToken = "" then
    .error (.errObj "Error"
      "Missing Contentful configuration. Please set VITE_CONTENTFUL_SPACE_ID and VITE_CONTENTFUL_ACCESS_TOKEN in .env.local")
  else
    .ok { space := spaceId
          accessToken := jsOrStr previewToken accessToken
          host := if jsTruthyStr previewToken then "preview.contentful.com"
                  else "cdn.contentful.com" }

/-- `getContentfulClient`: the module-level singleton `contentfulClient` is
the explicit state `st`; the returned `Bool` records whether this call ran
the one-time construction. -/
def getContentfulClient (env : Env) (st : Option ClientConfig) :
    Except Thrown (ClientConfig × Option ClientConfig × Bool) :=
  match st with
  | some c => .ok (c, some c, false)
  | none =>
    match initializeContentfulClient env with
    | .ok c => .ok (c, some c, true)
    | .error e => .error e

/-!
Domain types (`src/types/shop.ts`) and the CMS entry shapes consumed by the
transformer.  A reference field that the API did not resolve is a link
placeholder `{sys: {type: Link, ...}}` without a `fields` property;
accessing `.fields.someField` on it is a JavaScript `TypeError`.  The
resolved shapes follow the content-type skeletons (`CategorySkeleton`,
`ProductVariantSkeleton`, asset files).  Numbers are `Rat` (JS numbers in
the observed range), so `Math.round` is real rounding.
-/

/-- Domain `ProductVariant`. -/
structure ProductVariant where
  name : String
  priceModifier : Rat
deriving DecidableEq, Repr

/-- Domain `Category`. -/
structure Category where
  name : String
  slug : String
  description : Option String
deriving DecidableEq, Repr

/-- Domain `Product` as built by `transformProductEntry`. -/
structure Product where
  id : String
  name : String
  slug : String
  sku : String
  price : Int
  compareAtPrice : Option Int
  shortDescription : Option String
  description : Option String
  images : List String
  category : String
  variants : Option (List ProductVariant)
  inStock : Bool
  stockQuantity : Option Rat
  featured : Bool
  trustBadges : Option (List String)
deriving DecidableEq, Repr

/-- A category reference as it arrives in a product entry: resolved with
its fields, or an unresolved link placeholder (no `fields` property). -/
inductive CategoryRef where
  | resolved (name : String)
  | link
deriving DecidableEq, Repr

/-- A product-variant reference: resolved, or an unresolved link. -/
inductive VariantRef where
  | resolved (name : String) (priceModifier : Rat)
  | link
deriving DecidableEq, Repr

/-- An asset `file` object: `url` is `some` when it is a string
(`typeof file.url !== 'string'` otherwise). -/
structure FileData where
  url : Option String
deriving DecidableEq, Repr

/-- An asset reference: resolved with an optional `file` field, or an
unresolved link (no `fields` property). -/
inductive AssetRef where
  | resolved (file : Option FileData)
  | link
deriving DecidableEq, Repr

/-- The fields map of a product entry; every field may be absent at
runtime. -/
structure ProductFields where
  name : Option String
  slug : Option String
  sku : Option String
  price : Option Rat
  compareAtPrice : Option Rat
  shortDescription : Option String
  description : Option String
  category : Option CategoryRef
  images : Option (List AssetRef)
  variants : Option (List VariantRef)
  inStock : Option Bool
  stockQuantity : Option Rat
  featured : Option Bool
  trustBadges : Option (List String)
deriving DecidableEq, Repr

/-- A product entry: `sys.id` and the fields map. -/
structure EntryP where
  sysId : String
  fields : ProductFields
deriving DecidableEq, Repr

/-- JavaScript number truthiness: `undefined` and `0` are falsy. -/
def jsTruthyNum (o : Option Rat) : Bool :=
  match o with
  | none => false
  | some q => q ≠ 0

/-- `Math.round`: round half toward positive infinity. -/
def jsMathRound (q : Rat) : Int :=
  Int.floor (q + 1 / 2)

/-- The `TypeError` thrown by reading a property of `undefined` (the
`fields` of an unresolved link). -/
def typeErrorUndefined : Thrown :=
  .errObj "TypeError" "Cannot read properties of undefined"

/-- `getOptimizedImageUrl(assetUrl, width, height, quality)` (the source
defaults are `600, 600, 80`): empty in, empty out; otherwise
protocol-qualify and append the `URLSearchParams` query string. -/
def getOptimizedImageUrl (assetUrl : String) (width height quality : Nat) : String :=
  if assetUrl = "" then ""
  else
    let url := if assetUrl.startsWith "http" then assetUrl else "https:" ++ assetUrl
    url ++ "?w=" ++ toString width ++ "&h=" ++ toString height ++
      "&fit=crop&q=" ++ toString quality

/-- JavaScript `Array.prototype.map` with a callback that may throw: the
first thrown value aborts the whole map. -/
def mapJs {α β : Type} (f : α → Except Thrown β) : List α → Except Thrown (List β)
  | [] => .ok []
  | a :: rest =>
    match f a with
    | .error e => .error e
    | .ok b =>
      match mapJs f rest with
      | .error e => .error e
      | .ok bs => .ok (b :: bs)

/-- The `map` callback of `extractImageUrls`: `asset.fields.file` is a
`TypeError` on an unresolved link; a missing file or non-string URL yields
`""`; otherwise the optimized URL (source defaults `600, 600, 80`). -/
def extractOneImageUrl (a : AssetRef) : Except Thrown String :=
  match a with
  | .link => .error typeErrorUndefined
  | .resolved none => .ok ""
  | .resolved (some f) =>
    match f.url with
    | none => .ok ""
    | some u => .ok (getOptimizedImageUrl u 600 600 80)

/-- `extractImageUrls(assets)`: map each asset to its optimized URL, then
drop the `""` entries. -/
def extractImageUrls (assets : List AssetRef) : Except Thrown (List String) :=
  if assets.length = 0 then .ok []
  else
    match mapJs extractOneImageUrl assets with
    | .error e => .error e
    | .ok urls => .ok (urls.filter (fun u => u ≠ ""))

/-- The category resolution of `transformProductEntry`: absent is falsy and
keeps the `'uncategorized'` default; a resolved entry contributes
`categoryEntry.fields.name`; an unresolved link has no `fields`, so the
`.name` read throws a `TypeError`. -/
def resolveCategoryName (c : Option CategoryRef) : Except Thrown String :=
  match c with
  | none => .ok "uncategorized"
  | some (.resolved name) => .ok name
  | some .link => .error typeErrorUndefined

/-- The variant mapping of `transformProductEntry`: an absent array keeps
`[]`; each resolved reference maps to `{name, priceModifier}`; an
unresolved link throws a `TypeError` on `variantEntry.fields.name`. -/
def transformVariants (vs : Option (List VariantRef)) :
    Except Thrown (List ProductVariant) :=
  match vs with
  | none => .ok []
  | some l => mapJs (fun v =>
      match v with
      | .resolved name pm => .ok (ProductVariant.mk name pm)
      | .link => .error typeErrorUndefined) l

/-- `transformProductEntry(entry)` (`src/services/contentful.ts`): validate
the required fields by truthiness, resolve the category reference, map the
variant references, extract the images with the placeholder fallback, and
assemble the domain `Product`.  A thrown `ContentfulError` or `TypeError`
is the `.error` case. -/
def transformProductEntry (entry : EntryP) : Except Thrown Product :=
  let fields := entry.fields
  if ¬(jsTruthyStr fields.name ∧ jsTruthyStr fields.slug ∧
        jsTruthyStr fields.sku ∧ jsTruthyNum fields.price) then
    .error (.errObj "ContentfulError"
      ("Invalid product entry " ++ entry.sysId ++ ": missing required fields"))
  else
    match resolveCategoryName fields.category with
    | .error e => .error e
    | .ok categoryName =>
      match transformVariants fields.variants with
      | .error e => .error e
      | .ok variants =>
        match extractImageUrls (fields.images.getD []) with
        | .error e => .error e
        | .ok images0 =>
          let images :=
            if images0.length = 0 then ["/placeholder-product.jpg"] else images0
          .ok
            { id := entry.sysId
              name := fields.name.getD ""
              slug := fields.slug.getD ""
              sku := fields.sku.getD ""
              price := jsMathRound (fields.price.getD 0)
              compareAtPrice :=
                if jsTruthyNum fields.compareAtPrice then
                  some (jsMathRound (fields.compareAtPrice.getD 0))
                else none
              shortDescription := fields.shortDescription
              description := fields.description
              images := images
              category := categoryName
              variants := if variants.length > 0 then some variants else none
              inStock := fields.inStock.getD true
              stockQuantity := fields.stockQuantity
              featured := fields.featured.getD false
              trustBadges := fields.trustBadges }

/-!
Fetch accessors (`src/services/contentful.ts`).  The remote client is an
explicit per-attempt response function (`Nat → Except Thrown _`, the
argument being the retry attempt index); the module TTL cache is threaded
as explicit state over the value union `CVal` of the types actually
stored; `Date.now()` is the explicit `now`.  Each accessor returns
`(outcome, cache after the call, number of remote invocations)`.
-/

/-- The union of value types the module cache holds: product lists
(`all-products`, `featured-products`, `products-category-*`),
`Product | null` (`product-*`, `product-id-*`), category lists
(`all-categories`). -/
inductive CVal where
  | vProducts (ps : List Product)
  | vProductOpt (p : Option Product)
  | vCategories (cs : List Category)
deriving DecidableEq, Repr

/-- The module cache state. -/
abbrev CacheMap := List (String × CVal × Nat)

/-- `handleContentfulError(error, context)`: the `ContentfulError` it
throws, for an `Error` input and for any other thrown value. -/
def handleContentfulError (e : Thrown) (context : String) : Thrown :=
  let ctx := if context = "" then "" else " (" ++ context ++ ")"
  match e with
  | .errObj _ m =>
    .errObj "ContentfulError" ("Failed to fetch from Contentful" ++ ctx ++ ": " ++ m)
  | .other =>
    .errObj "ContentfulError"
      ("An unknown error occurred while fetching from Contentful" ++ ctx)

/-- The `fetchProductById` 404 test
(`error instanceof Error && error.message.includes('404')`). -/
def is404 (e : Thrown) : Bool :=
  match e with
  | .errObj _ m => jsIncludes m "404"
  | .other => false

/-- A category entry as returned for the `category` content type. -/
structure CategoryEntry where
  sysId : String
  name : String
  slug : String
  description : Option String
deriving DecidableEq, Repr

/-- The operation `withRetry` wraps in `fetchAllProducts`,
`fetchFeaturedProducts`, `searchProducts` and the product half of
`fetchProductsByCategory`: fetch a page of entries and transform each
(a transform throw aborts the `map` and is the attempt's error). -/
def productsPageOp (client : Nat → Except Thrown (List EntryP)) (i : Nat) :
    Except Thrown (List Product) :=
  match client i with
  | .error e => .error e
  | .ok items => mapJs transformProductEntry items

/-- `fetchAllProducts()`. -/
def fetchAllProducts (client : Nat → Except Thrown (List EntryP)) (now : Nat)
    (cache : CacheMap) : Except Thrown (List Product) × CacheMap × Nat :=
  let key := "all-products"
  let got := getCachedData now cache key
  match got.1 with
  | some (.vProducts ps) => (.ok ps, got.2, 0)
  | _ =>
    -- `if (cached)`: a cache miss, or a stored `null` (falsy).  A stored
    -- value of another variant never occurs under this key.
    match withRetry (productsPageOp client) 3 with
    | (.ok ps, n) => (.ok ps, setCachedData key (.vProducts ps) now got.2, n)
    | (.error e, n) => (.error (handleContentfulError e "fetching all products"), got.2, n)

/-- `fetchFeaturedProducts()` (the `fields.featured` filter lives in the
remote query the client models). -/
def fetchFeaturedProducts (client : Nat → Except Thrown (List EntryP)) (now : Nat)
    (cache : CacheMap) : Except Thrown (List Product) × CacheMap × Nat :=
  let key := "featured-products"
  let got := getCachedData now cache key
  match got.1 with
  | some (.vProducts ps) => (.ok ps, got.2, 0)
  | _ =>
    match withRetry (productsPageOp client) 3 with
    | (.ok ps, n) => (.ok ps, setCachedData key (.vProducts ps) now got.2, n)
    | (.error e, n) =>
      (.error (handleContentfulError e "fetching featured products"), got.2, n)

/-- The operation wrapped in `fetchProductBySlug`: first matching entry or
`null`. -/
def productBySlugOp (client : Nat → Except Thrown (List EntryP)) (i : Nat) :
    Except Thrown (Option Product) :=
  match client i with
  | .error e => .error e
  | .ok [] => .ok none
  | .ok (e :: _) =>
    match transformProductEntry e with
    | .error err => .error err
    | .ok p => .ok (some p)

/-- `fetchProductBySlug(slug)`. -/
def fetchProductBySlug (slug : String) (client : Nat → Except Thrown (List EntryP))
    (now : Nat) (cache : CacheMap) :
    Except Thrown (Option Product) × CacheMap × Nat :=
  if slug = "" then
    (.error (.errObj "ContentfulError" "Product slug is required"), cache, 0)
  else
    let key := "product-" ++ slug
    let got := getCachedData now cache key
    match got.1 with
    | some (.vProductOpt (some p)) => (.ok (some p), got.2, 0)
    | _ =>
      -- `if (cached !== null)`: a stored `null` falls through to a re-fetch.
      match withRetry (productBySlugOp client) 3 with
      | (.ok p, n) => (.ok p, setCachedData key (.vProductOpt p) now got.2, n)
      | (.error e, n) =>
        (.error (handleContentfulError e ("fetching product by slug: " ++ slug)), got.2, n)

/-- The operation wrapped in `fetchProductById`: `getEntry`, `null` for a
falsy entry, else transform. -/
def productByIdOp (client : Nat → Except Thrown (Option EntryP)) (i : Nat) :
    Except Thrown (Option Product) :=
  match client i with
  | .error e => .error e
  | .ok none => .ok none
  | .ok (some entry) =>
    match transformProductEntry entry with
    | .error err => .error err
    | .ok p => .ok (some p)

/-- `fetchProductById(id)`: a failure whose message contains `"404"`
resolves to `null`; any other failure is normalized by
`handleContentfulError` and rethrown. -/
def fetchProductById (id : String) (client : Nat → Except Thrown (Option EntryP))
    (now : Nat) (cache : CacheMap) :
    Except Thrown (Option Product) × CacheMap × Nat :=
  if id = "" then
    (.error (.errObj "ContentfulError" "Product ID is required"), cache, 0)
  else
    let key := "product-id-" ++ id
    let got := getCachedData now cache key
    match got.1 with
    | some (.vProductOpt (some p)) => (.ok (some p), got.2, 0)
    | _ =>
      match withRetry (productByIdOp client) 3 with
      | (.ok p, n) => (.ok p, setCachedData key (.vProductOpt p) now got.2, n)
      | (.error e, n) =>
        if is404 e then (.ok none, got.2, n)
        else
          (.error (handleContentfulError e ("fetching product by ID: " ++ id)), got.2, n)

/-- The operation wrapped in `fetchProductsByCategory`: resolve the
category by slug (empty result short-circuits to `[]`), then fetch and
transform that category's products. -/
def productsByCategoryOp (catClient : Nat → Except Thrown (List CategoryEntry))
    (prodClient : Nat → Except Thrown (List EntryP)) (i : Nat) :
    Except Thrown (List Product) :=
  match catClient i with
  | .error e => .error e
  | .ok [] => .ok []
  | .ok (_ :: _) =>
    match prodClient i with
    | .error e => .error e
    | .ok items => mapJs transformProductEntry items

/-- `fetchProductsByCategory(categorySlug)`. -/
def fetchProductsByCategory (categorySlug : String)
    (catClient : Nat → Except Thrown (List CategoryEntry))
    (prodClient : Nat → Except Thrown (List EntryP)) (now : Nat)
    (cache : CacheMap) : Except Thrown (List Product) × CacheMap × Nat :=
  if categorySlug = "" then
    (.error (.errObj "ContentfulError" "Category slug is required"), cache, 0)
  else
    let key := "products-category-" ++ categorySlug
    let got := getCachedData now cache key
    match got.1 with
    | some (.vProducts ps) => (.ok ps, got.2, 0)
    | _ =>
      match withRetry (productsByCategoryOp catClient prodClient) 3 with
      | (.ok ps, n) => (.ok ps, setCachedData key (.vProducts ps) now got.2, n)
      | (.error e, n) =>
        (.error (handleContentfulError e
          ("fetching products by category: " ++ categorySlug)), got.2, n)

/-- The operation wrapped in `fetchAllCategories`: map the entries to the
domain `Category`. -/
def categoriesOp (catClient : Nat → Except Thrown (List CategoryEntry)) (i : Nat) :
    Except Thrown (List Category) :=
  match catClient i with
  | .error e => .error e
  | .ok items => .ok (items.map (fun it => Category.mk it.name it.slug it.description))

/-- `fetchAllCategories()`. -/
def fetchAllCategories (catClient : Nat → Except Thrown (List CategoryEntry))
    (now : Nat) (cache : CacheMap) : Except Thrown (List Category) × CacheMap × Nat :=
  let key := "all-categories"
  let got := getCachedData now cache key
  match got.1 with
  | some (.vCategories cs) => (.ok cs, got.2, 0)
  | _ =>
    match withRetry (categoriesOp catClient) 3 with
    | (.ok cs, n) => (.ok cs, setCachedData key (.vCategories cs) now got.2, n)
    | (.error e, n) =>
      (.error (handleContentfulError e "fetching all categories"), got.2, n)

/-- `searchProducts(query)`: the guard returns `[]` for an empty or
too-short trimmed query before any remote work; the body never touches the
module cache — the cache parameter is threaded only to state that frame
property, and is returned unchanged on every path. -/
def searchProducts (query : String) (client : Nat → Except Thrown (List EntryP))
    (now : Nat) (cache : CacheMap) : Except Thrown (List Product) × CacheMap × Nat :=
  have _ := now
  if query = "" ∨ (jsTrim query).length < 2 then (.ok [], cache, 0)
  else
    match withRetry (productsPageOp client) 3 with
    | (.ok ps, n) => (.ok ps, cache, n)
    | (.error e, n) =>
      (.error (handleContentfulError e ("searching products with query: " ++ query)), cache, n)

/-!
Helper lemmas shared by the claim theorems.
-/

/-- A one-character needle that heads a matching prefix also matches. -/
theorem strHasPrefix_head {c : Char} {cs hay : List Char}
    (h : strHasPrefix (c :: cs) hay = true) : strHasPrefix [c] hay = true := by
  cases hay with
  | nil => simp [strHasPrefix] at h
  | cons d ds =>
    simp [strHasPrefix] at h ⊢
    exact h.1

/-- A one-character needle that heads a matching infix also occurs. -/
theorem strHasInfix_head {c : Char} {cs : List Char} :
    ∀ hay, strHasInfix (c :: cs) hay = true → strHasInfix [c] hay = true := by
  intro hay
  induction hay with
  | nil =>
    intro h
    simp [strHasInfix, strHasPrefix] at h
  | cons d ds ih =>
    intro h
    rw [strHasInfix] at h ⊢
    rcases Bool.or_eq_true_iff.mp h with hp | hi
    · exact Bool.or_eq_true_iff.mpr (Or.inl (strHasPrefix_head hp))
    · exact Bool.or_eq_true_iff.mpr (Or.inr (ih hi))

/-- A message containing `"404"` contains `"4"`. -/
theorem jsIncludes_4_of_404 (m : String) (h : jsIncludes m "404" = true) :
    jsIncludes m "4" = true := by
  have h404 : "404".toList = ['4', '0', '4'] := rfl
  have h4 : "4".toList = ['4'] := rfl
  unfold jsIncludes at h ⊢
  rw [h404] at h
  rw [h4]
  exact strHasInfix_head m.toList h

/-!
Claim theorems.
-/

/-- C1.  Retry bound of `withRetry` at `maxAttempts = 3`: an operation that
fails on every attempt with errors not classified as client-side is invoked
exactly 3 times and the last observed error is rethrown; an operation that
fails once (not client-side) and then succeeds is invoked exactly 2 times
and its success value is returned. -/
theorem withRetry_bound :
    (∀ (α : Type) (fn : Nat → Except Thrown α) (e0 e1 e2 : Thrown),
      fn 0 = .error e0 → fn 1 = .error e1 → fn 2 = .error e2 →
      isClientError e0 = false → isClientError e1 = false →
      isClientError e2 = false →
      withRetry fn 3 = (.error e2, 3)) ∧
    (∀ (α : Type) (fn : Nat → Except Thrown α) (e0 : Thrown) (v : α),
      fn 0 = .error e0 → isClientError e0 = false → fn 1 = .ok v →
      withRetry fn 3 = (.ok v, 2)) := by
  constructor
  · intro α fn e0 e1 e2 h0 h1 h2 c0 c1 c2
    simp [withRetry, withRetryLoop, h0, h1, h2, c0, c1, c2]
  · intro α fn e0 v h0 c0 h1
    simp [withRetry, withRetryLoop, h0, c0, h1]

/-- An operation that fails on every attempt with a retryable error. -/
def alwaysFailsFn : Nat → Except Thrown Nat :=
  fun i => .error (.errObj "Error" ("boom " ++ toString i))

/-- An operation that fails once with a retryable error, then succeeds. -/
def failsOnceFn : Nat → Except Thrown Nat :=
  fun i => if i = 0 then .error (.errObj "Error" "boom") else .ok 7

/-- Witness for C1 at concrete operations. -/
theorem withRetry_bound_witness :
    withRetry alwaysFailsFn 3 = (.error (.errObj "Error" "boom 2"), 3) ∧
    withRetry failsOnceFn 3 = (.ok 7, 2) :=
  ⟨withRetry_bound.1 Nat alwaysFailsFn (.errObj "Error" "boom 0")
      (.errObj "Error" "boom 1") (.errObj "Error" "boom 2")
      rfl rfl rfl (by decide) (by decide) (by decide),
   withRetry_bound.2 Nat failsOnceFn (.errObj "Error" "boom") 7
      rfl (by decide) rfl⟩

/-- C2.  An operation whose first failure is an `Error` whose message
contains `"404"` is never retried: `withRetry` performs exactly 1 attempt
and rethrows that error. -/
theorem withRetry_no_retry_on_client_error :
    ∀ (α : Type) (fn : Nat → Except Thrown α) (nm m : String),
      fn 0 = .error (.errObj nm m) → jsIncludes m "404" = true →
      withRetry fn 3 = (.error (.errObj nm m), 1) := by
  intro α fn nm m h0 h404
  have h4 : jsIncludes m "4" = true := jsIncludes_4_of_404 m h404
  simp [withRetry, withRetryLoop, h0, isClientError, h4]

/-- An operation that always fails with a 404-style error. -/
def fails404Fn : Nat → Except Thrown Nat :=
  fun _ => .error (.errObj "Error" "Request failed with status 404")

/-- Witness for C2 at a concrete 404-failing operation. -/
theorem withRetry_no_retry_on_client_error_witness :
    withRetry fails404Fn 3 =
      (.error (.errObj "Error" "Request failed with status 404"), 1) :=
  withRetry_no_retry_on_client_error Nat fails404Fn "Error"
    "Request failed with status 404" rfl (by decide)

/-- After `cache.delete(key)` no entry for `key` remains. -/
theorem cacheFind_delete {V : Type} (c : List (String × V × Nat)) (k : String) :
    cacheFind (cacheDelete c k) k = none := by
  induction c with
  | nil => simp [cacheDelete, cacheFind]
  | cons e rest ih =>
    obtain ⟨k', v, t⟩ := e
    by_cases h : k' = k <;> simp [cacheDelete, cacheFind, h, ih]

/-- A freshly set entry is found with its value and timestamp. -/
theorem cacheFind_set {V : Type} (c : List (String × V × Nat)) (k : String)
    (v : V) (t : Nat) : cacheFind (setCachedData k v t c) k = some (v, t) := by
  simp [setCachedData, cacheFind]

/-- C3.  TTL-cache contract: `set` then immediate `get` returns the value;
`get` of an entry older than the 5-minute TTL returns `none` and evicts it;
`get` of a fresh entry returns the stored value and leaves the cache
unchanged; `set` unconditionally overwrites any prior entry for the key. -/
theorem cache_ttl_contract :
    (∀ (V : Type) (cache : List (String × V × Nat)) (k : String) (v : V)
        (now : Nat),
      (getCachedData now (setCachedData k v now cache) k).1 = some v) ∧
    (∀ (V : Type) (cache : List (String × V × Nat)) (k : String) (v : V)
        (ts now : Nat),
      cacheFind cache k = some (v, ts) → now - ts > CACHE_DURATION_MS →
      getCachedData now cache k = (none, cacheDelete cache k) ∧
      cacheFind (getCachedData now cache k).2 k = none) ∧
    (∀ (V : Type) (cache : List (String × V × Nat)) (k : String) (v : V)
        (ts now : Nat),
      cacheFind cache k = some (v, ts) → now - ts ≤ CACHE_DURATION_MS →
      getCachedData now cache k = (some v, cache)) ∧
    (∀ (V : Type) (cache : List (String × V × Nat)) (k : String) (v : V)
        (now : Nat),
      cacheFind (setCachedData k v now cache) k = some (v, now)) := by
  refine ⟨?_, ?_, ?_, ?_⟩
  · intro V cache k v now
    simp [getCachedData, cacheFind_set]
  · intro V cache k v ts now hfind hold
    constructor
    · simp [getCachedData, hfind, hold]
    · simp [getCachedData, hfind, hold, cacheFind_delete]
  · intro V cache k v ts now hfind hfresh
    simp [getCachedData, hfind]
    omega
  · intro V cache k v now
    exact cacheFind_set cache k v now

/-- Witness for C3 at a concrete one-entry `Nat` cache. -/
theorem cache_ttl_contract_witness :
    (getCachedData 100 (setCachedData "k" (5 : Nat) 100 []) "k").1 = some 5 ∧
    (getCachedData 300001 [("k", (5 : Nat), 0)] "k" = (none, []) ∧
      cacheFind ((getCachedData 300001 [("k", (5 : Nat), 0)] "k")).2 "k" = none) ∧
    getCachedData 300000 [("k", (5 : Nat), 0)] "k" =
      (some 5, [("k", (5 : Nat), 0)]) ∧
    cacheFind (setCachedData "k" (7 : Nat) 9 [("k", (5 : Nat), 0)]) "k" =
      some (7, 9) :=
  ⟨cache_ttl_contract.1 Nat [] "k" 5 100,
   cache_ttl_contract.2.1 Nat [("k", (5 : Nat), 0)] "k" 5 0 300001
     (by decide) (by decide),
   cache_ttl_contract.2.2.1 Nat [("k", (5 : Nat), 0)] "k" 5 0 300000
     (by decide) (by decide),
   cache_ttl_contract.2.2.2 Nat [("k", (5 : Nat), 0)] "k" 7 9⟩

/-- A `mapJs` whose callback only ever throws `typeErrorUndefined` only
ever throws `typeErrorUndefined`. -/
theorem mapJs_error_eq {α β : Type} (f : α → Except Thrown β)
    (hf : ∀ a e, f a = .error e → e = typeErrorUndefined) :
    ∀ (l : List α) (e : Thrown), mapJs f l = .error e → e = typeErrorUndefined := by
  intro l
  induction l with
  | nil =>
    intro e h
    simp [mapJs] at h
  | cons a rest ih =>
    intro e h
    rw [mapJs] at h
    cases hfa : f a with
    | error e1 =>
      rw [hfa] at h
      cases h
      exact hf a e hfa
    | ok b =>
      rw [hfa] at h
      cases hrest : mapJs f rest with
      | error e2 =>
        rw [hrest] at h
        cases h
        exact ih e hrest
      | ok bs =>
        rw [hrest] at h
        cases h

/-- `resolveCategoryName` only ever throws the link `TypeError`. -/
theorem resolveCategoryName_error_eq (c : Option CategoryRef) (e : Thrown)
    (h : resolveCategoryName c = .error e) : e = typeErrorUndefined := by
  cases c with
  | none => simp [resolveCategoryName] at h
  | some r =>
    cases r with
    | resolved name => simp [resolveCategoryName] at h
    | link =>
      rw [resolveCategoryName] at h
      cases h
      rfl

/-- `transformVariants` only ever throws the link `TypeError`. -/
theorem transformVariants_error_eq (vs : Option (List VariantRef)) (e : Thrown)
    (h : transformVariants vs = .error e) : e = typeErrorUndefined := by
  cases vs with
  | none => simp [transformVariants] at h
  | some l =>
    refine mapJs_error_eq _ ?_ l e h
    intro v e1 hv
    cases v with
    | resolved name pm => simp at hv
    | link =>
      cases hv
      rfl

/-- `extractImageUrls` only ever throws the link `TypeError`. -/
theorem extractImageUrls_error_eq (assets : List AssetRef) (e : Thrown)
    (h : extractImageUrls assets = .error e) : e = typeErrorUndefined := by
  rw [extractImageUrls] at h
  split at h
  · cases h
  · cases hmap : mapJs extractOneImageUrl assets with
    | error e1 =>
      rw [hmap] at h
      cases h
      refine mapJs_error_eq _ ?_ assets e hmap
      intro a e2 ha
      cases a with
      | link =>
        cases ha
        rfl
      | resolved file =>
        cases file with
        | none => simp [extractOneImageUrl] at ha
        | some f => cases hf : f.url <;> simp [extractOneImageUrl, hf] at ha
    | ok urls =>
      rw [hmap] at h
      cases h

/-- A product fields map with all four required fields present but
`price = 0` (a present, falsy value). -/
def zeroPriceFields : ProductFields :=
  { name := some "Serum", slug := some "serum", sku := some "SKU-1"
    price := some 0, compareAtPrice := none, shortDescription := none
    description := none, category := none, images := none, variants := none
    inStock := none, stockQuantity := none, featured := none
    trustBadges := none }

/-- C4 counterexample: an entry in which all four mandatory fields are
present (`name`, `slug`, `sku` and `price` are all defined, `price = 0`)
still raises the `ContentfulError` validation error, so the validation
error is not raised only for entries with an absent field. -/
theorem transform_zero_price_counterexample :
    (EntryP.mk "p1" zeroPriceFields).fields.name.isSome = true ∧
    (EntryP.mk "p1" zeroPriceFields).fields.slug.isSome = true ∧
    (EntryP.mk "p1" zeroPriceFields).fields.sku.isSome = true ∧
    (EntryP.mk "p1" zeroPriceFields).fields.price.isSome = true ∧
    transformProductEntry (EntryP.mk "p1" zeroPriceFields) =
      .error (.errObj "ContentfulError"
        "Invalid product entry p1: missing required fields") :=
  ⟨rfl, rfl, rfl, rfl, rfl⟩

/-- C4 amended: `transformProductEntry` raises the `ContentfulError`
validation error exactly when one of the mandatory fields `name`, `slug`,
`sku`, `price` is falsy — absent, an empty string, or the number 0 — and
never raises it for an entry in which all four are present and truthy. -/
theorem transform_validation_amended :
    ∀ entry : EntryP,
      (∃ msg, transformProductEntry entry = .error (.errObj "ContentfulError" msg)) ↔
      ¬(jsTruthyStr entry.fields.name ∧ jsTruthyStr entry.fields.slug ∧
         jsTruthyStr entry.fields.sku ∧ jsTruthyNum entry.fields.price) := by
  intro entry
  constructor
  · rintro ⟨msg, h⟩ htruthy
    rw [transformProductEntry, if_neg (not_not_intro htruthy)] at h
    cases hc : resolveCategoryName entry.fields.category with
    | error e =>
      rw [hc] at h
      injection h with h2
      rw [resolveCategoryName_error_eq _ _ hc] at h2
      simp [typeErrorUndefined] at h2
    | ok categoryName =>
      rw [hc] at h
      cases hv : transformVariants entry.fields.variants with
      | error e =>
        rw [hv] at h
        injection h with h2
        rw [transformVariants_error_eq _ _ hv] at h2
        simp [typeErrorUndefined] at h2
      | ok variants =>
        rw [hv] at h
        cases hi : extractImageUrls (entry.fields.images.getD []) with
        | error e =>
          rw [hi] at h
          injection h with h2
          rw [extractImageUrls_error_eq _ _ hi] at h2
          simp [typeErrorUndefined] at h2
        | ok images0 =>
          rw [hi] at h
          simp at h
  · intro hfalsy
    exact ⟨_, by rw [transformProductEntry, if_pos hfalsy]⟩

/-- Witness for C4's amended theorem: an entry with no `sku` raises the
validation error. -/
theorem transform_validation_amended_witness :
    ∃ msg,
      transformProductEntry (EntryP.mk "p1" { zeroPriceFields with
        price := some 120, sku := none }) =
        .error (.errObj "ContentfulError" msg) :=
  (transform_validation_amended (EntryP.mk "p1" { zeroPriceFields with
      price := some 120, sku := none })).mpr (by decide)

/-- A product fields map with all required fields truthy and every optional
field absent. -/
def validFields : ProductFields :=
  { zeroPriceFields with price := some 120 }

/-- An otherwise valid entry whose `category` field is an unresolved
reference link (a placeholder with no `fields`). -/
def entryUnresolvedCategory : EntryP :=
  EntryP.mk "p2" { validFields with category := some CategoryRef.link }

/-- C5.  The failing input: on an entry with an unresolved category link
the transformer does not produce `category = "uncategorized"` — reading
`categoryEntry.fields.name` on the link placeholder throws a `TypeError`,
so no `Product` is produced at all.  Only an absent (`undefined`) category
gets the `"uncategorized"` default. -/
theorem transform_unresolved_category_typeerror :
    transformProductEntry entryUnresolvedCategory = .error typeErrorUndefined ∧
    (∃ p, transformProductEntry (EntryP.mk "p3" validFields) = .ok p ∧
      p.category = "uncategorized") :=
  ⟨rfl, ⟨_, rfl, rfl⟩⟩

/-- C6.  Image invariant: every `Product` the transformer returns has a
nonempty `images` list (the placeholder URL is substituted when the
extracted list is empty). -/
theorem transform_images_nonempty :
    ∀ (entry : EntryP) (p : Product),
      transformProductEntry entry = .ok p → 1 ≤ p.images.length := by
  intro entry p h
  rw [transformProductEntry] at h
  split at h
  · exact absurd h (by simp)
  · cases hc : resolveCategoryName entry.fields.category with
    | error e =>
      rw [hc] at h
      exact absurd h (by simp)
    | ok categoryName =>
      rw [hc] at h
      cases hv : transformVariants entry.fields.variants with
      | error e =>
        rw [hv] at h
        exact absurd h (by simp)
      | ok variants =>
        rw [hv] at h
        cases hi : extractImageUrls (entry.fields.images.getD []) with
        | error e =>
          rw [hi] at h
          exact absurd h (by simp)
        | ok images0 =>
          rw [hi] at h
          injection h with h2
          rw [← h2]
          by_cases himg : images0.length = 0 <;> simp [himg]
          omega

/-- Witness for C6: the image invariant at a concrete accepted entry. -/
theorem transform_images_nonempty_witness :
    ∃ p, transformProductEntry (EntryP.mk "p3" validFields) = .ok p ∧
      1 ≤ p.images.length :=
  ⟨_, rfl, transform_images_nonempty (EntryP.mk "p3" validFields) _ rfl⟩

/-- `o || dflt` is nonempty whenever the fallback is. -/
theorem jsOrStr_ne_empty (o : Option String) (d : String) (hd : d ≠ "") :
    jsOrStr o d ≠ "" := by
  cases o with
  | none => simpa [jsOrStr] using hd
  | some s =>
    by_cases hs : s = "" <;> simp [jsOrStr, hs, hd]

/-- C7 counterexample: with both required environment values missing
(`spaceId` and `accessToken` unset), the first `getContentfulClient` call
does not throw — the hardcoded fallback credentials are substituted and
construction succeeds. -/
theorem getClient_missing_env_counterexample :
    getContentfulClient (Env.mk none none none) none =
      .ok (ClientConfig.mk "z9ei2s7jmq34"
            "1D1JdXttqP3jIt6Xasfcs_IIFyHBOtpvfmuUliWmkgc" "cdn.contentful.com",
          some (ClientConfig.mk "z9ei2s7jmq34"
            "1D1JdXttqP3jIt6Xasfcs_IIFyHBOtpvfmuUliWmkgc" "cdn.contentful.com"),
          true) := rfl

/-- C7 amended: construction never throws — a missing required value is
replaced by its hardcoded fallback — and once constructed the client handle
is memoized: every subsequent call returns the same handle with no further
construction. -/
theorem getClient_defaults_and_memoization :
    ∀ env : Env,
      (∃ c, initializeContentfulClient env = .ok c) ∧
      (∀ (c : ClientConfig) (st2 : Option ClientConfig) (constructed : Bool),
        getContentfulClient env none = .ok (c, st2, constructed) →
        st2 = some c ∧ constructed = true ∧
        getContentfulClient env st2 = .ok (c, st2, false)) := by
  intro env
  have hcond : ¬(jsOrStr env.spaceId "z9ei2s7jmq34" = "" ∨
      jsOrStr env.accessToken "1D1JdXttqP3jIt6Xasfcs_IIFyHBOtpvfmuUliWmkgc" = "") := by
    rintro (h | h)
    · exact jsOrStr_ne_empty _ _ (by decide) h
    · exact jsOrStr_ne_empty _ _ (by decide) h
  constructor
  · refine ⟨ClientConfig.mk (jsOrStr env.spaceId "z9ei2s7jmq34")
      (jsOrStr env.previewToken
        (jsOrStr env.accessToken "1D1JdXttqP3jIt6Xasfcs_IIFyHBOtpvfmuUliWmkgc"))
      (if jsTruthyStr env.previewToken then "preview.contentful.com"
       else "cdn.contentful.com"), ?_⟩
    simp only [initializeContentfulClient]
    rw [if_neg hcond]
  · intro c st2 constructed h
    rw [getContentfulClient] at h
    cases hinit : initializeContentfulClient env with
    | error e =>
      rw [hinit] at h
      cases h
    | ok c0 =>
      rw [hinit] at h
      injection h with h2
      injection h2 with ha hb
      injection hb with hb1 hb2
      subst ha
      subst hb1
      subst hb2
      exact ⟨rfl, rfl, rfl⟩

/-- Witness for C7's amended theorem at a concrete environment. -/
theorem getClient_defaults_and_memoization_witness :
    some (ClientConfig.mk "sp" "tok" "cdn.contentful.com") =
      some (ClientConfig.mk "sp" "tok" "cdn.contentful.com") ∧
    true = true ∧
    getContentfulClient (Env.mk (some "sp") (some "tok") none)
        (some (ClientConfig.mk "sp" "tok" "cdn.contentful.com")) =
      .ok (ClientConfig.mk "sp" "tok" "cdn.contentful.com",
           some (ClientConfig.mk "sp" "tok" "cdn.contentful.com"), false) :=
  (getClient_defaults_and_memoization (Env.mk (some "sp") (some "tok") none)).2
    (ClientConfig.mk "sp" "tok" "cdn.contentful.com")
    (some (ClientConfig.mk "sp" "tok" "cdn.contentful.com")) true rfl

/-- C8.  An empty or whitespace-only search query short-circuits:
`searchProducts` returns `[]`, performs no remote invocation, and leaves
the cache untouched. -/
theorem searchProducts_empty_query :
    ∀ (q : String) (client : Nat → Except Thrown (List EntryP)) (now : Nat)
      (cache : CacheMap),
      q = "" ∨ jsTrim q = "" →
      searchProducts q client now cache = (.ok [], cache, 0) := by
  intro q client now cache hq
  have hguard : q = "" ∨ (jsTrim q).length < 2 := by
    rcases hq with h | h
    · exact Or.inl h
    · refine Or.inr ?_
      rw [h]
      decide
  rw [searchProducts, if_pos hguard]

/-- Witness for C8 at a whitespace-only query. -/
theorem searchProducts_empty_query_witness :
    searchProducts "   " (fun _ => .ok []) 0 [] = (.ok [], [], 0) :=
  searchProducts_empty_query "   " (fun _ => .ok []) 0 []
    (Or.inr (by decide))

/-- C9.  `fetchProductById` (on a cache miss): a remote failure whose
message contains `"404"` resolves to `null` after the single attempt; any
other exhausted failure is rethrown normalized as a `ContentfulError`. -/
theorem fetchProductById_404_resolves_null :
    (∀ (id : String) (client : Nat → Except Thrown (Option EntryP)) (now : Nat)
        (nm m : String),
      id ≠ "" → client 0 = .error (.errObj nm m) → jsIncludes m "404" = true →
      fetchProductById id client now [] = (.ok none, [], 1)) ∧
    (∀ (id : String) (client : Nat → Except Thrown (Option EntryP)) (now : Nat)
        (e : Thrown) (n : Nat),
      id ≠ "" → withRetry (productByIdOp client) 3 = (.error e, n) →
      is404 e = false →
      fetchProductById id client now [] =
        (.error (handleContentfulError e ("fetching product by ID: " ++ id)),
         [], n) ∧
      ∃ msg, handleContentfulError e ("fetching product by ID: " ++ id) =
        .errObj "ContentfulError" msg) := by
  constructor
  · intro id client now nm m hid h0 h404
    have h4 := jsIncludes_4_of_404 m h404
    have hop : productByIdOp client 0 = .error (.errObj nm m) := by
      simp [productByIdOp, h0]
    have hretry : withRetry (productByIdOp client) 3 = (.error (.errObj nm m), 1) := by
      simp [withRetry, withRetryLoop, hop, isClientError, h4]
    simp only [fetchProductById, if_neg hid, getCachedData, cacheFind]
    rw [hretry]
    simp [is404, h404]
  · intro id client now e n hid hretry h404f
    constructor
    · simp only [fetchProductById, if_neg hid, getCachedData, cacheFind]
      rw [hretry]
      simp [h404f]
    · cases e with
      | errObj nm m => exact ⟨_, rfl⟩
      | other => exact ⟨_, rfl⟩

/-- A remote client whose every attempt fails with a 404-style error. -/
def client404 : Nat → Except Thrown (Option EntryP) :=
  fun _ => .error (.errObj "NotFound" "Entry not found, status 404")

/-- A remote client whose every attempt fails with a retryable error. -/
def clientServerErr : Nat → Except Thrown (Option EntryP) :=
  fun _ => .error (.errObj "Error" "server exploded")

/-- Witness for C9 at concrete failing clients. -/
theorem fetchProductById_404_resolves_null_witness :
    fetchProductById "x1" client404 0 [] = (.ok none, [], 1) ∧
    (fetchProductById "x1" clientServerErr 0 [] =
        (.error (handleContentfulError (.errObj "Error" "server exploded")
          ("fetching product by ID: " ++ "x1")), [], 3) ∧
      ∃ msg, handleContentfulError (.errObj "Error" "server exploded")
          ("fetching product by ID: " ++ "x1") = .errObj "ContentfulError" msg) :=
  ⟨fetchProductById_404_resolves_null.1 "x1" client404 0 "NotFound"
      "Entry not found, status 404" (by decide) rfl (by decide),
   fetchProductById_404_resolves_null.2 "x1" clientServerErr 0
      (.errObj "Error" "server exploded") 3 (by decide) rfl (by decide)⟩

/-- The retry loop never decreases the attempt counter. -/
theorem withRetryLoop_attempt_le {α : Type} (fn : Nat → Except Thrown α) :
    ∀ (fuel attempt : Nat) (lastError : Option Thrown),
      attempt ≤ (withRetryLoop fn fuel attempt lastError).2 := by
  intro fuel
  induction fuel with
  | zero =>
    intro a l
    simp [withRetryLoop]
  | succ f ih =>
    intro a l
    rw [withRetryLoop]
    cases hfa : fn a with
    | ok v => simp
    | error e =>
      by_cases hc : isClientError e
      · simp [hc]
      · simp only [hc, Bool.false_eq_true, if_false]
        exact le_trans (Nat.le_succ a) (ih (a + 1) (some e))

/-- With a positive attempt budget, `withRetry` invokes the operation at
least once. -/
theorem withRetry_attempts_pos {α : Type} (fn : Nat → Except Thrown α)
    (m : Nat) (hm : 0 < m) : 1 ≤ (withRetry fn m).2 := by
  cases m with
  | zero => omega
  | succ m' =>
    rw [withRetry, withRetryLoop]
    cases hfa : fn 0 with
    | ok v => simp
    | error e =>
      by_cases hc : isClientError e
      · simp [hc]
      · simp only [hc, Bool.false_eq_true, if_false]
        exact withRetryLoop_attempt_le fn m' 1 (some e)

/-- C10.  `searchProducts` never reads or writes the module TTL cache (the
cache after any call is the cache before it) while still contacting the
remote client on every valid query; by contrast, each of the six cached
accessors consults the cache (a fresh hit is returned with no remote
invocation) and populates it (a successful fetch is stored under the
accessor's key with the current timestamp). -/
theorem searchProducts_cache_frame :
    (∀ (q : String) (client : Nat → Except Thrown (List EntryP)) (now : Nat)
        (cache : CacheMap),
      (searchProducts q client now cache).2.1 = cache) ∧
    (∀ (q : String) (client : Nat → Except Thrown (List EntryP)) (now : Nat)
        (cache : CacheMap),
      2 ≤ (jsTrim q).length →
      1 ≤ (searchProducts q client now cache).2.2) ∧
    (∀ (client : Nat → Except Thrown (List EntryP)) (now : Nat)
        (cache : CacheMap) (ps : List Product) (c2 : CacheMap),
      getCachedData now cache "all-products" = (some (.vProducts ps), c2) →
      fetchAllProducts client now cache = (.ok ps, c2, 0)) ∧
    (∀ (client : Nat → Except Thrown (List EntryP)) (now : Nat)
        (cache : CacheMap) (ps : List Product) (n : Nat),
      (getCachedData now cache "all-products").1 = none →
      withRetry (productsPageOp client) 3 = (.ok ps, n) →
      cacheFind (fetchAllProducts client now cache).2.1 "all-products" =
        some (.vProducts ps, now)) ∧
    (∀ (client : Nat → Except Thrown (List EntryP)) (now : Nat)
        (cache : CacheMap) (ps : List Product) (c2 : CacheMap),
      getCachedData now cache "featured-products" = (some (.vProducts ps), c2) →
      fetchFeaturedProducts client now cache = (.ok ps, c2, 0)) ∧
    (∀ (client : Nat → Except Thrown (List EntryP)) (now : Nat)
        (cache : CacheMap) (ps : List Product) (n : Nat),
      (getCachedData now cache "featured-products").1 = none →
      withRetry (productsPageOp client) 3 = (.ok ps, n) →
      cacheFind (fetchFeaturedProducts client now cache).2.1 "featured-products" =
        some (.vProducts ps, now)) ∧
    (∀ (slug : String) (client : Nat → Except Thrown (List EntryP)) (now : Nat)
        (cache : CacheMap) (p : Product) (c2 : CacheMap),
      slug ≠ "" →
      getCachedData now cache ("product-" ++ slug) =
        (some (.vProductOpt (some p)), c2) →
      fetchProductBySlug slug client now cache = (.ok (some p), c2, 0)) ∧
    (∀ (slug : String) (client : Nat → Except Thrown (List EntryP)) (now : Nat)
        (cache : CacheMap) (p : Option Product) (n : Nat),
      slug ≠ "" →
      (getCachedData now cache ("product-" ++ slug)).1 = none →
      withRetry (productBySlugOp client) 3 = (.ok p, n) →
      cacheFind (fetchProductBySlug slug client now cache).2.1
        ("product-" ++ slug) = some (.vProductOpt p, now)) ∧
    (∀ (id : String) (client : Nat → Except Thrown (Option EntryP)) (now : Nat)
        (cache : CacheMap) (p : Product) (c2 : CacheMap),
      id ≠ "" →
      getCachedData now cache ("product-id-" ++ id) =
        (some (.vProductOpt (some p)), c2) →
      fetchProductById id client now cache = (.ok (some p), c2, 0)) ∧
    (∀ (id : String) (client : Nat → Except Thrown (Option EntryP)) (now : Nat)
        (cache : CacheMap) (p : Option Product) (n : Nat),
      id ≠ "" →
      (getCachedData now cache ("product-id-" ++ id)).1 = none →
      withRetry (productByIdOp client) 3 = (.ok p, n) →
      cacheFind (fetchProductById id client now cache).2.1
        ("product-id-" ++ id) = some (.vProductOpt p, now)) ∧
    (∀ (slug : String) (catClient : Nat → Except Thrown (List CategoryEntry))
        (prodClient : Nat → Except Thrown (List EntryP)) (now : Nat)
        (cache : CacheMap) (ps : List Product) (c2 : CacheMap),
      slug ≠ "" →
      getCachedData now cache ("products-category-" ++ slug) =
        (some (.vProducts ps), c2) →
      fetchProductsByCategory slug catClient prodClient now cache =
        (.ok ps, c2, 0)) ∧
    (∀ (slug : String) (catClient : Nat → Except Thrown (List CategoryEntry))
        (prodClient : Nat → Except Thrown (List EntryP)) (now : Nat)
        (cache : CacheMap) (ps : List Product) (n : Nat),
      slug ≠ "" →
      (getCachedData now cache ("products-category-" ++ slug)).1 = none →
      withRetry (productsByCategoryOp catClient prodClient) 3 = (.ok ps, n) →
      cacheFind (fetchProductsByCategory slug catClient prodClient now cache).2.1
        ("products-category-" ++ slug) = some (.vProducts ps, now)) ∧
    (∀ (catClient : Nat → Except Thrown (List CategoryEntry)) (now : Nat)
        (cache : CacheMap) (cs : List Category) (c2 : CacheMap),
      getCachedData now cache "all-categories" = (some (.vCategories cs), c2) →
      fetchAllCategories catClient now cache = (.ok cs, c2, 0)) ∧
    (∀ (catClient : Nat → Except Thrown (List CategoryEntry)) (now : Nat)
        (cache : CacheMap) (cs : List Category) (n : Nat),
      (getCachedData now cache "all-categories").1 = none →
      withRetry (categoriesOp catClient) 3 = (.ok cs, n) →
      cacheFind (fetchAllCategories catClient now cache).2.1 "all-categories" =
        some (.vCategories cs, now)) := by
  refine ⟨?_, ?_, ?_, ?_, ?_, ?_, ?_, ?_, ?_, ?_, ?_, ?_, ?_, ?_⟩
  · intro q client now cache
    rw [searchProducts]
    split
    · rfl
    · split <;> rfl
  · intro q client now cache hlen
    have hq : ¬(q = "" ∨ (jsTrim q).length < 2) := by
      rintro (rfl | h)
      · exact absurd hlen (by decide)
      · omega
    rw [searchProducts, if_neg hq]
    have hpos := withRetry_attempts_pos (productsPageOp client) 3 (by omega)
    cases hr : withRetry (productsPageOp client) 3 with
    | mk res n =>
      rw [hr] at hpos
      cases res <;> simpa using hpos
  · intro client now cache ps c2 hget
    simp only [fetchAllProducts]
    rw [hget]
  · intro client now cache ps n hmiss hretry
    simp only [fetchAllProducts]
    rw [hmiss, hretry]
    exact cacheFind_set _ _ _ _
  · intro client now cache ps c2 hget
    simp only [fetchFeaturedProducts]
    rw [hget]
  · intro client now cache ps n hmiss hretry
    simp only [fetchFeaturedProducts]
    rw [hmiss, hretry]
    exact cacheFind_set _ _ _ _
  · intro slug client now cache p c2 hslug hget
    simp only [fetchProductBySlug, if_neg hslug]
    rw [hget]
  · intro slug client now cache p n hslug hmiss hretry
    simp only [fetchProductBySlug, if_neg hslug]
    rw [hmiss, hretry]
    exact cacheFind_set _ _ _ _
  · intro id client now cache p c2 hid hget
    simp only [fetchProductById, if_neg hid]
    rw [hget]
  · intro id client now cache p n hid hmiss hretry
    simp only [fetchProductById, if_neg hid]
    rw [hmiss, hretry]
    exact cacheFind_set _ _ _ _
  · intro slug catClient prodClient now cache ps c2 hslug hget
    simp only [fetchProductsByCategory, if_neg hslug]
    rw [hget]
  · intro slug catClient prodClient now cache ps n hslug hmiss hretry
    simp only [fetchProductsByCategory, if_neg hslug]
    rw [hmiss, hretry]
    exact cacheFind_set _ _ _ _
  · intro catClient now cache cs c2 hget
    simp only [fetchAllCategories]
    rw [hget]
  · intro catClient now cache cs n hmiss hretry
    simp only [fetchAllCategories]
    rw [hmiss, hretry]
    exact cacheFind_set _ _ _ _

/-- A concrete product value for the cache-frame witness. -/
def sampleProduct : Product :=
  Product.mk "id1" "N" "s" "k" 1 none none none ["/placeholder-product.jpg"]
    "uncategorized" none true none false none

/-- A remote client returning an empty product page on every attempt. -/
def emptyPageClient : Nat → Except Thrown (List EntryP) := fun _ => .ok []

/-- A remote client returning an empty category page on every attempt. -/
def emptyCatClient : Nat → Except Thrown (List CategoryEntry) := fun _ => .ok []

/-- A remote client resolving `getEntry` to a falsy entry on every attempt. -/
def noEntryClient : Nat → Except Thrown (Option EntryP) := fun _ => .ok none

/-- Witness for C10: every conjunct instantiated at concrete clients,
caches and times. -/
theorem searchProducts_cache_frame_witness :
    (searchProducts "ab" emptyPageClient 0
      [("all-products", CVal.vProducts [], 0)]).2.1 =
        [("all-products", CVal.vProducts [], 0)] ∧
    1 ≤ (searchProducts "ab" emptyPageClient 0 []).2.2 ∧
    fetchAllProducts emptyPageClient 0 [("all-products", CVal.vProducts [], 0)] =
      (.ok [], [("all-products", CVal.vProducts [], 0)], 0) ∧
    cacheFind (fetchAllProducts emptyPageClient 5 []).2.1 "all-products" =
      some (.vProducts [], 5) ∧
    fetchFeaturedProducts emptyPageClient 0
        [("featured-products", CVal.vProducts [], 0)] =
      (.ok [], [("featured-products", CVal.vProducts [], 0)], 0) ∧
    cacheFind (fetchFeaturedProducts emptyPageClient 5 []).2.1 "featured-products" =
      some (.vProducts [], 5) ∧
    fetchProductBySlug "s" emptyPageClient 0
        [("product-" ++ "s", CVal.vProductOpt (some sampleProduct), 0)] =
      (.ok (some sampleProduct),
       [("product-" ++ "s", CVal.vProductOpt (some sampleProduct), 0)], 0) ∧
    cacheFind (fetchProductBySlug "s" emptyPageClient 5 []).2.1 ("product-" ++ "s") =
      some (.vProductOpt none, 5) ∧
    fetchProductById "i" noEntryClient 0
        [("product-id-" ++ "i", CVal.vProductOpt (some sampleProduct), 0)] =
      (.ok (some sampleProduct),
       [("product-id-" ++ "i", CVal.vProductOpt (some sampleProduct), 0)], 0) ∧
    cacheFind (fetchProductById "i" noEntryClient 5 []).2.1 ("product-id-" ++ "i") =
      some (.vProductOpt none, 5) ∧
    fetchProductsByCategory "c" emptyCatClient emptyPageClient 0
        [("products-category-" ++ "c", CVal.vProducts [], 0)] =
      (.ok [], [("products-category-" ++ "c", CVal.vProducts [], 0)], 0) ∧
    cacheFind
        (fetchProductsByCategory "c" emptyCatClient emptyPageClient 5 []).2.1
        ("products-category-" ++ "c") = some (.vProducts [], 5) ∧
    fetchAllCategories emptyCatClient 0
        [("all-categories", CVal.vCategories [], 0)] =
      (.ok [], [("all-categories", CVal.vCategories [], 0)], 0) ∧
    cacheFind (fetchAllCategories emptyCatClient 5 []).2.1 "all-categories" =
      some (.vCategories [], 5) :=
  ⟨searchProducts_cache_frame.1 "ab" emptyPageClient 0
     [("all-products", CVal.vProducts [], 0)],
   searchProducts_cache_frame.2.1 "ab" emptyPageClient 0 [] (by decide),
   searchProducts_cache_frame.2.2.1 emptyPageClient 0
     [("all-products", CVal.vProducts [], 0)] [] _ rfl,
   searchProducts_cache_frame.2.2.2.1 emptyPageClient 5 [] [] 1 rfl rfl,
   searchProducts_cache_frame.2.2.2.2.1 emptyPageClient 0
     [("featured-products", CVal.vProducts [], 0)] [] _ rfl,
   searchProducts_cache_frame.2.2.2.2.2.1 emptyPageClient 5 [] [] 1 rfl rfl,
   searchProducts_cache_frame.2.2.2.2.2.2.1 "s" emptyPageClient 0
     [("product-" ++ "s", CVal.vProductOpt (some sampleProduct), 0)]
     sampleProduct _ (by decide) rfl,
   searchProducts_cache_frame.2.2.2.2.2.2.2.1 "s" emptyPageClient 5 [] none 1
     (by decide) rfl rfl,
   searchProducts_cache_frame.2.2.2.2.2.2.2.2.1 "i" noEntryClient 0
     [("product-id-" ++ "i", CVal.vProductOpt (some sampleProduct), 0)]
     sampleProduct _ (by decide) rfl,
   searchProducts_cache_frame.2.2.2.2.2.2.2.2.2.1 "i" noEntryClient 5 [] none 1
     (by decide) rfl rfl,
   searchProducts_cache_frame.2.2.2.2.2.2.2.2.2.2.1 "c" emptyCatClient
     emptyPageClient 0 [("products-category-" ++ "c", CVal.vProducts [], 0)] []
     _ (by decide) rfl,
   searchProducts_cache_frame.2.2.2.2.2.2.2.2.2.2.2.1 "c" emptyCatClient
     emptyPageClient 5 [] [] 1 (by decide) rfl rfl,
   searchProducts_cache_frame.2.2.2.2.2.2.2.2.2.2.2.2.1 emptyCatClient 0
     [("all-categories", CVal.vCategories [], 0)] [] _ rfl,
   searchProducts_cache_frame.2.2.2.2.2.2.2.2.2.2.2.2.2 emptyCatClient 5 [] [] 1
     rfl rfl⟩

end Austacute
